import Mathlib

/-!
Verification of the `defillama` Python API client (`src/defillama/client.py`,
`src/defillama/models.py`) against its natural-language specification.

The embedding is shallow:

* JSON values as decoded by Python's `json` module are modelled by `Json`
  (Python keeps `int` and `float` apart after parsing, so the model does too;
  floats are modelled exactly as rationals, since the client never performs
  arithmetic on them).
* Each pydantic model is a Lean structure together with an executable decoder
  `Json → Except DecodeErr _` mirroring pydantic `model_validate` /
  `TypeAdapter.validate_python` field by field, in declaration order.  The
  decoders model the coercions actually exercised by the service's JSON
  (numbers for numeric fields, with pydantic's lax int-from-integral-float);
  pydantic's numeric-string coercions ("123" for an int field) are outside the
  shapes the service emits and are not modelled.  pydantic collects every field
  error while the model reports the first, and nested error locations are
  reported at the top-level field; no property proved below depends on either.
* Each client operation is split into a pure request builder (method, URL,
  query parameters, mirroring the f-strings and `params` dicts) and a pure
  response step; the HTTP transport is abstracted as a function from the built
  request to a transport outcome (a response, or a transport-level failure).
* `_request` / `_async_request` are modelled by `runRequest`: a non-2xx status
  makes `httpx.raise_for_status` throw `HTTPStatusError`, which the client
  catches and re-raises as `ValueError (f"HTTP error: {e}")`; the message
  format of `httpx.HTTPStatusError` is reproduced (the redirect-specific
  "Redirect location" suffix never arises for the statuses considered here).
-/

/-- JSON values as produced by Python's `json.loads`: Python distinguishes
`int` from `float` after parsing, and objects are key-ordered dicts (parsed
objects have unique keys). -/
inductive Json where
  | null : Json
  | bool (b : Bool) : Json
  | int (n : Int) : Json
  | float (q : ℚ) : Json
  | str (s : String) : Json
  | arr (elems : List Json) : Json
  | obj (fields : List (String × Json)) : Json

/-- A value placed in an httpx `params` dict by the client: the code only ever
stores ints, strings and booleans there. -/
inductive QueryVal where
  | int (n : Int) : QueryVal
  | str (s : String) : QueryVal
  | bool (b : Bool) : QueryVal
deriving DecidableEq, Repr

/-- An outgoing HTTP request as assembled by a client method: the literal URL
from the f-string and the `params` dict in insertion order (a key absent from
the list is absent from the request). -/
structure Request where
  method : String
  url : String
  params : List (String × QueryVal)
deriving DecidableEq, Repr

/-- An HTTP response delivered by the transport. -/
structure Response where
  statusCode : Nat
  reasonPhrase : String
  url : String
  body : Json

/-- Outcome of one transport round-trip: either a response arrived, or the
attempt failed at the transport level (connection/timeout/DNS/cancellation,
httpx `RequestError`), which the client code does not catch. -/
inductive TransportOutcome where
  | response (r : Response) : TransportOutcome
  | failure (detail : String) : TransportOutcome

/-- The remote service as seen through the transport: what outcome each
request produces against the current remote state. -/
def RemoteState := Request → TransportOutcome

/-- A validation failure: the field location and a description of the
mismatch, as carried by a pydantic `ValidationError`. -/
structure DecodeErr where
  loc : List String
  msg : String
deriving DecidableEq, Repr

/-- The exceptions a client operation can surface, one constructor per Python
exception class reaching the caller:
`transportError` for an uncaught httpx `RequestError`,
`valueError` for the `ValueError(f"HTTP error: {e}")` raised in `_request` on
a non-2xx status (its only payload is the formatted message string), and
`validationError` for a pydantic `ValidationError` from `model_validate`. -/
inductive PyError where
  | transportError (detail : String) : PyError
  | valueError (message : String) : PyError
  | validationError (err : DecodeErr) : PyError
deriving DecidableEq, Repr

/-- httpx `codes.is_success`: `raise_for_status` lets exactly the 2xx
statuses through. -/
def statusIsSuccess (code : Nat) : Bool :=
  200 ≤ code && code ≤ 299

/-- The status-class prefix of the `httpx.HTTPStatusError` message
(`_models.py`, `raise_for_status`). -/
def statusClassText (code : Nat) : String :=
  match code / 100 with
  | 1 => "Informational response"
  | 3 => "Redirect response"
  | 4 => "Client error"
  | 5 => "Server error"
  | _ => "Invalid status code"

/-- The message of the `ValueError` the client raises on a non-2xx response:
`f"HTTP error: {e}"` where `str(e)` is the `httpx.HTTPStatusError` message
built by `raise_for_status` from the status code, reason phrase and URL.  The
response body appears nowhere in it. -/
def httpErrorMessage (code : Nat) (reason : String) (url : String) : String :=
  "HTTP error: " ++ statusClassText code ++ " \x27" ++ toString code ++ " " ++
    reason ++ "\x27 for url \x27" ++ url ++ "\x27\n" ++
    "For more information check: https://developer.mozilla.org/en-US/docs/Web/HTTP/Status/" ++
    toString code

/-- `DefiLlama._request` / `._async_request` (identical bodies): perform the
call, `raise_for_status`, return the parsed JSON body; an `HTTPStatusError`
is caught and re-raised as `ValueError(f"HTTP error: {e}")`; transport errors
propagate uncaught. -/
def runRequest : TransportOutcome → Except PyError Json
  | .failure detail => .error (.transportError detail)
  | .response r =>
      if statusIsSuccess r.statusCode then .ok r.body
      else .error (.valueError (httpErrorMessage r.statusCode r.reasonPhrase r.url))

/-- `models.XYZ.model_validate(data)` after a successful `_request`: a decode
failure surfaces as the pydantic `ValidationError`, uncaught by the client. -/
def validated {α : Type} (dec : Json → Except DecodeErr α)
    (raw : Except PyError Json) : Except PyError α :=
  match raw with
  | .error e => .error e
  | .ok data =>
      match dec data with
      | .ok v => .ok v
      | .error err => .error (.validationError err)

/-- `self.BASE_URL` -/
def BASE_URL : String := "https://api.llama.fi"

/-- `self.COINS_URL` -/
def COINS_URL : String := "https://coins.llama.fi"

/-- `self.STABLECOINS_URL` -/
def STABLECOINS_URL : String := "https://stablecoins.llama.fi"

/-- `self.YIELDS_URL` -/
def YIELDS_URL : String := "https://yields.llama.fi"

/-- Python truthiness of an `Optional[int]` argument, as tested by the bare
`if x:` checks in the client: `None` and `0` are falsy. -/
def truthyOptInt : Option Int → Bool
  | none => false
  | some n => n != 0

/-- Python truthiness of an `Optional[str]` argument: `None` and `""` are
falsy. -/
def truthyOptStr : Option String → Bool
  | none => false
  | some s => s != ""

/-- `if x: params["key"] = x` for an `Optional[int]` argument. -/
def optIntParam (key : String) (v : Option Int) : List (String × QueryVal) :=
  match v with
  | none => []
  | some n => if n != 0 then [(key, .int n)] else []

/-- `if x: params["key"] = x` for an `Optional[str]` argument. -/
def optStrParam (key : String) (v : Option String) : List (String × QueryVal) :=
  match v with
  | none => []
  | some s => if s != "" then [(key, .str s)] else []

/-- Python `repr` of a list of ints, `[1, 2]`. -/
def pyIntListRepr (ts : List Int) : String :=
  "[" ++ String.intercalate ", " (ts.map toString) ++ "]"

/-- Python `str(coins)` for the `Dict[str, List[int]]` argument of
`get_batch_historical_prices`: the dict repr with single-quoted keys. -/
def pyCoinsDictRepr (coins : List (String × List Int)) : String :=
  "\x7b" ++
    String.intercalate ", "
      (coins.map (fun p => "\x27" ++ p.1 ++ "\x27: " ++ pyIntListRepr p.2)) ++
  "\x7d"

/-- Request built by `DefiLlama.get_protocol`. -/
def getProtocolRequest (protocol_slug : String) : Request :=
  ⟨"GET", BASE_URL ++ "/protocol/" ++ protocol_slug, []⟩

/-- Request built by `DefiLlama.get_protocol_tvl` (and its async form, whose
body is identical). -/
def getProtocolTvlRequest (protocol_slug : String) : Request :=
  ⟨"GET", BASE_URL ++ "/tvl/" ++ protocol_slug, []⟩

/-- Request built by `DefiLlama.get_current_prices`:
`coins_str = ",".join(coins)` placed in the path, `searchWidth` in the query
string. -/
def getCurrentPricesRequest (coins : List String) (search_width : String) :
    Request :=
  ⟨"GET", COINS_URL ++ "/prices/current/" ++ String.intercalate "," coins,
    [("searchWidth", .str search_width)]⟩

/-- Request built by `DefiLlama.get_batch_historical_prices`: the coins dict
is stringified into the `coins` query parameter; `searchWidth` is added only
when truthy. -/
def getBatchHistoricalPricesRequest (coins : List (String × List Int))
    (search_width : Option String) : Request :=
  ⟨"GET", COINS_URL ++ "/batchHistorical",
    [("coins", .str (pyCoinsDictRepr coins))] ++
      optStrParam "searchWidth" search_width⟩

/-- Request built by `DefiLlama.get_price_chart` (and its async form, whose
body is identical): comma-joined coins in the path; each optional parameter
is added to `params` only when truthy. -/
def getPriceChartRequest (coins : List String) (start end_ span : Option Int)
    (period search_width : Option String) : Request :=
  ⟨"GET", COINS_URL ++ "/chart/" ++ String.intercalate "," coins,
    optIntParam "start" start ++ optIntParam "end" end_ ++
      optIntParam "span" span ++ optStrParam "period" period ++
      optStrParam "searchWidth" search_width⟩

/-- Request built by `DefiLlama.get_price_percentage_change`: `lookForward`
and `period` always present, `timestamp` only when truthy. -/
def getPricePercentageChangeRequest (coins : List String)
    (timestamp : Option Int) (look_forward : Bool) (period : String) :
    Request :=
  ⟨"GET", COINS_URL ++ "/percentage/" ++ String.intercalate "," coins,
    [("lookForward", .bool look_forward), ("period", .str period)] ++
      optIntParam "timestamp" timestamp⟩

/-- Python `chain.lower()`, character by character (the chain slugs the API
accepts are ASCII, where Python and this mapping agree). -/
def pyLower (s : String) : String := ⟨s.data.map Char.toLower⟩

/-- Request built by `DefiLlama.get_block`: note the `chain.lower()` in the
f-string. -/
def getBlockRequest (chain : String) (timestamp : Int) : Request :=
  ⟨"GET",
    COINS_URL ++ "/block/" ++ pyLower chain ++ "/" ++ toString timestamp, []⟩

/-- Request built by `DefiLlama.get_block_async`: unlike the blocking form,
the chain is interpolated without `.lower()`. -/
def getBlockAsyncRequest (chain : String) (timestamp : Int) : Request :=
  ⟨"GET", COINS_URL ++ "/block/" ++ chain ++ "/" ++ toString timestamp, []⟩

/-- Request built by `DefiLlama.get_stablecoins`. -/
def getStablecoinsRequest (include_prices : Bool) : Request :=
  ⟨"GET", STABLECOINS_URL ++ "/stablecoins",
    [("includePrices", .bool include_prices)]⟩

/-- Request built by `DefiLlama.get_stablecoin_charts`: the endpoint is
`/stablecoincharts/all` unless a truthy chain is given; `stablecoin` is added
to `params` only when truthy. -/
def getStablecoinChartsRequest (chain : Option String)
    (stablecoin : Option Int) : Request :=
  ⟨"GET",
    STABLECOINS_URL ++
      (match chain with
       | some c => if c != "" then "/stablecoincharts/" ++ c
                   else "/stablecoincharts/all"
       | none => "/stablecoincharts/all"),
    optIntParam "stablecoin" stablecoin⟩

/-- Request built by `DefiLlama.get_pools`. -/
def getPoolsRequest : Request :=
  ⟨"GET", YIELDS_URL ++ "/pools", []⟩

/-- `fields[key]` on a parsed JSON object (parsed objects have unique keys). -/
def lookupField : List (String × Json) → String → Option Json
  | [], _ => none
  | (k, v) :: rest, key => if k = key then some v else lookupField rest key

/-- pydantic lax decode of a `float` field: accepts JSON ints and floats. -/
def decodeNumQ : Json → Option ℚ
  | .int n => some (n : ℚ)
  | .float q => some q
  | _ => none

/-- pydantic lax decode of an `int` field: accepts JSON ints, and floats with
no fractional part; booleans and non-integral floats are rejected. -/
def decodeIntJ : Json → Option Int
  | .int n => some n
  | .float q => if q.den = 1 then some q.num else none
  | _ => none

/-- pydantic decode of a `str` field (numbers are not coerced to strings). -/
def decodeStrJ : Json → Option String
  | .str s => some s
  | _ => none

/-- pydantic decode of a `bool` field. -/
def decodeBoolJ : Json → Option Bool
  | .bool b => some b
  | _ => none

/-- Decode every value of a JSON object as a number: pydantic
`Dict[str, float]`. -/
def decodeStrNumPairs : List (String × Json) → Option (List (String × ℚ))
  | [] => some []
  | (k, v) :: rest =>
      match decodeNumQ v, decodeStrNumPairs rest with
      | some q, some tail => some ((k, q) :: tail)
      | _, _ => none

/-- pydantic `Dict[str, float]` from a JSON value. -/
def decodeChainAmounts : Json → Option (List (String × ℚ))
  | .obj fields => decodeStrNumPairs fields
  | _ => none

/-- pydantic `List[str]` from a JSON value. -/
def decodeStrListJ : Json → Option (List String)
  | .arr elems => elems.mapM decodeStrJ
  | _ => none

/-- A required model field: absent gives pydantic's `Field required` error at
that location, a type mismatch gives `typeMsg` there. -/
def reqField {α : Type} (fields : List (String × Json)) (key : String)
    (dec : Json → Option α) (typeMsg : String) : Except DecodeErr α :=
  match lookupField fields key with
  | none => .error ⟨[key], "Field required"⟩
  | some j =>
      match dec j with
      | some v => .ok v
      | none => .error ⟨[key], typeMsg⟩

/-- An `Optional[T] = None` model field: absent or JSON null decodes to the
explicit absent state; a present non-null value must decode as `T`. -/
def optField {α : Type} (fields : List (String × Json)) (key : String)
    (dec : Json → Option α) (typeMsg : String) :
    Except DecodeErr (Option α) :=
  match lookupField fields key with
  | none => .ok none
  | some .null => .ok none
  | some j =>
      match dec j with
      | some v => .ok (some v)
      | none => .error ⟨[key], typeMsg⟩

/-- A model field `x : List[T] = Field(default_factory=list)`: absent decodes
to the empty list. -/
def listFieldWithDefault {α : Type} (fields : List (String × Json))
    (key : String) (dec : Json → Option α) (typeMsg : String) :
    Except DecodeErr (List α) :=
  match lookupField fields key with
  | none => .ok []
  | some (.arr elems) =>
      match elems.mapM dec with
      | some vs => .ok vs
      | none => .error ⟨[key], typeMsg⟩
  | some _ => .error ⟨[key], "Input should be a valid list"⟩

/-- A pydantic model validates only dict input at the top level. -/
def asModelInput : Json → Except DecodeErr (List (String × Json))
  | .obj fields => .ok fields
  | _ => .error ⟨[], "Input should be a valid dictionary"⟩

/-- The `Union[Dict[str, float], int]` member type of the
`circulatingPrevDay/Week/Month` fields of `models.Stablecoin`: a tagged union
keeping the map and sentinel variants apart. -/
inductive CirculatingValue where
  | chainMap (amounts : List (String × ℚ)) : CirculatingValue
  | sentinel (n : Int) : CirculatingValue
deriving DecidableEq, Repr

/-- pydantic smart-union decode of `Union[Dict[str, float], int]`: a JSON
object of numbers gives the map variant, a JSON int (or integral float, by
lax coercion) gives the sentinel variant, anything else fails. -/
def decodeCirculatingValue : Json → Option CirculatingValue
  | .obj fields => (decodeStrNumPairs fields).map .chainMap
  | .int n => some (.sentinel n)
  | .float q => if q.den = 1 then some (.sentinel q.num) else none
  | _ => none

/-- `models.Stablecoin`, field for field.  `circulating` is declared
`Dict[str, float]` (map only); the three `circulatingPrev*` fields are
declared `Optional[Union[Dict[str, float], int]]`. -/
structure Stablecoin where
  id : String
  name : String
  symbol : String
  gecko_id : Option String
  pegType : String
  priceSource : Option String
  pegMechanism : String
  circulating : List (String × ℚ)
  circulatingPrevDay : Option CirculatingValue
  circulatingPrevWeek : Option CirculatingValue
  circulatingPrevMonth : Option CirculatingValue
  price : Option ℚ
  chainCirculating : Option (List (String × List (String × CirculatingValue)))
deriving DecidableEq, Repr

/-- Inner value of `chainCirculating`:
`Dict[str, Union[Dict[str, float], int]]`. -/
def decodeCircValueMap : Json → Option (List (String × CirculatingValue))
  | .obj fields =>
      fields.mapM (fun p => (decodeCirculatingValue p.2).map (fun v => (p.1, v)))
  | _ => none

/-- `Dict[str, Dict[str, Union[Dict[str, float], int]]]` for
`chainCirculating`. -/
def decodeChainCirculating :
    Json → Option (List (String × List (String × CirculatingValue)))
  | .obj fields =>
      fields.mapM (fun p => (decodeCircValueMap p.2).map (fun v => (p.1, v)))
  | _ => none

/-- `models.Stablecoin.model_validate`, mirroring the field declarations in
order. -/
def decodeStablecoin (j : Json) : Except DecodeErr Stablecoin := do
  let fields ← asModelInput j
  let id ← reqField fields "id" decodeStrJ "Input should be a valid string"
  let name ← reqField fields "name" decodeStrJ "Input should be a valid string"
  let symbol ← reqField fields "symbol" decodeStrJ "Input should be a valid string"
  let gecko_id ← optField fields "gecko_id" decodeStrJ "Input should be a valid string"
  let pegType ← reqField fields "pegType" decodeStrJ "Input should be a valid string"
  let priceSource ← optField fields "priceSource" decodeStrJ "Input should be a valid string"
  let pegMechanism ← reqField fields "pegMechanism" decodeStrJ "Input should be a valid string"
  let circulating ← reqField fields "circulating" decodeChainAmounts
    "Input should be a valid dictionary"
  let circulatingPrevDay ← optField fields "circulatingPrevDay"
    decodeCirculatingValue "Input should be a valid dictionary or integer"
  let circulatingPrevWeek ← optField fields "circulatingPrevWeek"
    decodeCirculatingValue "Input should be a valid dictionary or integer"
  let circulatingPrevMonth ← optField fields "circulatingPrevMonth"
    decodeCirculatingValue "Input should be a valid dictionary or integer"
  let price ← optField fields "price" decodeNumQ "Input should be a valid number"
  let chainCirculating ← optField fields "chainCirculating"
    decodeChainCirculating "Input should be a valid dictionary"
  pure ⟨id, name, symbol, gecko_id, pegType, priceSource, pegMechanism,
    circulating, circulatingPrevDay, circulatingPrevWeek,
    circulatingPrevMonth, price, chainCirculating⟩

/-- Generic `TypeAdapter(List[T]).validate_python`: decodes each array
element in order (the error of a failing element is reported under its
index). -/
def decodeListFrom {α : Type} (dec : Json → Except DecodeErr α) :
    Nat → List Json → Except DecodeErr (List α)
  | _, [] => .ok []
  | i, x :: xs =>
      match dec x with
      | .error e => .error ⟨toString i :: e.loc, e.msg⟩
      | .ok v =>
          match decodeListFrom dec (i + 1) xs with
          | .error e => .error e
          | .ok vs => .ok (v :: vs)

/-- `TypeAdapter(List[T]).validate_python` on a JSON value: only an array is
accepted. -/
def decodeJsonList {α : Type} (dec : Json → Except DecodeErr α) :
    Json → Except DecodeErr (List α)
  | .arr elems => decodeListFrom dec 0 elems
  | _ => .error ⟨[], "Input should be a valid list"⟩

/-- `models.Stablecoins.validate_python`. -/
def decodeStablecoins : Json → Except DecodeErr (List Stablecoin) :=
  decodeJsonList decodeStablecoin

/-- The post-transport step of `DefiLlama.get_stablecoins` (and its async
form, whose body is identical): if the body is a dict containing the
`peggedAssets` envelope key, validate the inner value, else validate the body
itself. -/
def getStablecoinsDecode (data : Json) : Except DecodeErr (List Stablecoin) :=
  match data with
  | .obj fields =>
      match lookupField fields "peggedAssets" with
      | some inner => decodeStablecoins inner
      | none => decodeStablecoins (.obj fields)
  | _ => decodeStablecoins data

/-- `List[Optional[str]]` for `Pool.rewardTokens`: elements may be null. -/
def decodeOptStrList : Json → Option (List (Option String))
  | .arr elems =>
      elems.mapM (fun e =>
        match e with
        | .null => some none
        | .str s => some (some s)
        | _ => none)
  | _ => none

/-- `Dict[str, Any]` for `Pool.predictions`: any JSON object passes, values
kept as-is. -/
def decodeOpenDict : Json → Option (List (String × Json))
  | .obj fields => some fields
  | _ => none

/-- `models.Pool`, field for field. -/
structure Pool where
  chain : String
  project : String
  symbol : String
  tvlUsd : ℚ
  apyBase : Option ℚ
  apyReward : Option ℚ
  apy : ℚ
  rewardTokens : Option (List (Option String))
  pool : String
  apyPct1D : Option ℚ
  apyPct7D : Option ℚ
  apyPct30D : Option ℚ
  stablecoin : Bool
  ilRisk : Option String
  exposure : Option String
  predictions : Option (List (String × Json))

/-- `models.Pool.model_validate`, mirroring the field declarations in
order. -/
def decodePool (j : Json) : Except DecodeErr Pool := do
  let fields ← asModelInput j
  let chain ← reqField fields "chain" decodeStrJ "Input should be a valid string"
  let project ← reqField fields "project" decodeStrJ "Input should be a valid string"
  let symbol ← reqField fields "symbol" decodeStrJ "Input should be a valid string"
  let tvlUsd ← reqField fields "tvlUsd" decodeNumQ "Input should be a valid number"
  let apyBase ← optField fields "apyBase" decodeNumQ "Input should be a valid number"
  let apyReward ← optField fields "apyReward" decodeNumQ "Input should be a valid number"
  let apy ← reqField fields "apy" decodeNumQ "Input should be a valid number"
  let rewardTokens ← optField fields "rewardTokens" decodeOptStrList
    "Input should be a valid list"
  let pool ← reqField fields "pool" decodeStrJ "Input should be a valid string"
  let apyPct1D ← optField fields "apyPct1D" decodeNumQ "Input should be a valid number"
  let apyPct7D ← optField fields "apyPct7D" decodeNumQ "Input should be a valid number"
  let apyPct30D ← optField fields "apyPct30D" decodeNumQ "Input should be a valid number"
  let stablecoin ← reqField fields "stablecoin" decodeBoolJ "Input should be a valid boolean"
  let ilRisk ← optField fields "ilRisk" decodeStrJ "Input should be a valid string"
  let exposure ← optField fields "exposure" decodeStrJ "Input should be a valid string"
  let predictions ← optField fields "predictions" decodeOpenDict
    "Input should be a valid dictionary"
  pure ⟨chain, project, symbol, tvlUsd, apyBase, apyReward, apy,
    rewardTokens, pool, apyPct1D, apyPct7D, apyPct30D, stablecoin,
    ilRisk, exposure, predictions⟩

/-- `models.Pools.validate_python`. -/
def decodePools : Json → Except DecodeErr (List Pool) :=
  decodeJsonList decodePool

/-- The post-transport step of `DefiLlama.get_pools` (and its async form,
whose body is identical): if the body is a dict containing the `data`
envelope key, validate the inner value, else validate the body itself. -/
def getPoolsDecode (data : Json) : Except DecodeErr (List Pool) :=
  match data with
  | .obj fields =>
      match lookupField fields "data" with
      | some inner => decodePools inner
      | none => decodePools (.obj fields)
  | _ => decodePools data

/-- `models.Block`, field for field. -/
structure Block where
  height : Int
  timestamp : Int
deriving DecidableEq, Repr

/-- `models.Block.model_validate`. -/
def decodeBlock (j : Json) : Except DecodeErr Block := do
  let fields ← asModelInput j
  let height ← reqField fields "height" decodeIntJ "Input should be a valid integer"
  let timestamp ← reqField fields "timestamp" decodeIntJ "Input should be a valid integer"
  pure ⟨height, timestamp⟩

/-- `ProtocolDetails.ProtocolHistoricalTvl`: one point of the historical TVL
series.  pydantic parses the `datetime` from the epoch number the service
sends; the timestamp is kept as that number. -/
structure ProtocolHistoricalTvl where
  date : ℚ
  totalLiquidityUSD : ℚ
deriving DecidableEq, Repr

/-- `models.TokenHistory`. -/
structure TokenHistory where
  date : Int
  tokens : List (String × ℚ)
deriving DecidableEq, Repr

/-- `ProtocolDetails.ProtocolChainTvlDetails`. -/
structure ProtocolChainTvlDetails where
  tvl : List ProtocolHistoricalTvl
  tokens : Option (List TokenHistory)
  tokensInUsd : Option (List TokenHistory)
deriving DecidableEq, Repr

/-- `models.ProtocolDetails` (inheriting `models.Protocol`), fields in
pydantic declaration order with the subclass overrides of `tvl` and
`chainTvls` in place. -/
structure ProtocolDetails where
  id : String
  name : String
  address : Option String
  symbol : String
  url : Option String
  description : Option String
  chain : Option String
  logo : Option String
  chains : List String
  gecko_id : Option String
  cmcId : Option String
  category : String
  tvl : List ProtocolHistoricalTvl
  chainTvls : List (String × ProtocolChainTvlDetails)
  change_1h : Option ℚ
  change_1d : Option ℚ
  change_7d : Option ℚ
  tokens : Option (List TokenHistory)
  tokensInUsd : Option (List TokenHistory)
deriving DecidableEq, Repr

/-- `data` points of the protocol TVL series. -/
def decodePHTvl : Json → Option ProtocolHistoricalTvl
  | .obj fields => do
      let date ← (lookupField fields "date").bind decodeNumQ
      let total ← (lookupField fields "totalLiquidityUSD").bind decodeNumQ
      pure ⟨date, total⟩
  | _ => none

/-- `models.TokenHistory.model_validate`, collapsed to an element decoder. -/
def decodeTokenHistory : Json → Option TokenHistory
  | .obj fields => do
      let date ← (lookupField fields "date").bind decodeIntJ
      let tokens ← (lookupField fields "tokens").bind decodeChainAmounts
      pure ⟨date, tokens⟩
  | _ => none

/-- `List[TokenHistory]`. -/
def decodeTokenHistoryList : Json → Option (List TokenHistory)
  | .arr elems => elems.mapM decodeTokenHistory
  | _ => none

/-- `List[ProtocolHistoricalTvl]`. -/
def decodePHTvlList : Json → Option (List ProtocolHistoricalTvl)
  | .arr elems => elems.mapM decodePHTvl
  | _ => none

/-- `ProtocolDetails.ProtocolChainTvlDetails` element decoder: `tvl`
defaults to the empty list when absent. -/
def decodeChainTvlDetails : Json → Option ProtocolChainTvlDetails
  | .obj fields => do
      let tvl ←
        match lookupField fields "tvl" with
        | none => some []
        | some j => decodePHTvlList j
      let tokens ←
        match lookupField fields "tokens" with
        | none => some none
        | some .null => some none
        | some j => (decodeTokenHistoryList j).map some
      let tokensInUsd ←
        match lookupField fields "tokensInUsd" with
        | none => some none
        | some .null => some none
        | some j => (decodeTokenHistoryList j).map some
      pure ⟨tvl, tokens, tokensInUsd⟩
  | _ => none

/-- `Dict[str, ProtocolChainTvlDetails]`. -/
def decodeChainTvlsMap : Json → Option (List (String × ProtocolChainTvlDetails))
  | .obj fields =>
      fields.mapM (fun p => (decodeChainTvlDetails p.2).map (fun v => (p.1, v)))
  | _ => none

/-- `models.ProtocolDetails.model_validate`, mirroring the field
declarations in order. -/
def decodeProtocolDetails (j : Json) : Except DecodeErr ProtocolDetails := do
  let fields ← asModelInput j
  let id ← reqField fields "id" decodeStrJ "Input should be a valid string"
  let name ← reqField fields "name" decodeStrJ "Input should be a valid string"
  let address ← optField fields "address" decodeStrJ "Input should be a valid string"
  let symbol ← reqField fields "symbol" decodeStrJ "Input should be a valid string"
  let url ← optField fields "url" decodeStrJ "Input should be a valid string"
  let description ← optField fields "description" decodeStrJ "Input should be a valid string"
  let chain ← optField fields "chain" decodeStrJ "Input should be a valid string"
  let logo ← optField fields "logo" decodeStrJ "Input should be a valid string"
  let chains ← reqField fields "chains" decodeStrListJ "Input should be a valid list"
  let gecko_id ← optField fields "gecko_id" decodeStrJ "Input should be a valid string"
  let cmcId ← optField fields "cmcId" decodeStrJ "Input should be a valid string"
  let category ← reqField fields "category" decodeStrJ "Input should be a valid string"
  let tvl ← listFieldWithDefault fields "tvl" decodePHTvl
    "Input should be a valid TVL data point"
  let chainTvls ← reqField fields "chainTvls" decodeChainTvlsMap
    "Input should be a valid dictionary"
  let change_1h ← optField fields "change_1h" decodeNumQ "Input should be a valid number"
  let change_1d ← optField fields "change_1d" decodeNumQ "Input should be a valid number"
  let change_7d ← optField fields "change_7d" decodeNumQ "Input should be a valid number"
  let tokens ← optField fields "tokens" decodeTokenHistoryList
    "Input should be a valid list"
  let tokensInUsd ← optField fields "tokensInUsd" decodeTokenHistoryList
    "Input should be a valid list"
  pure ⟨id, name, address, symbol, url, description, chain, logo, chains,
    gecko_id, cmcId, category, tvl, chainTvls, change_1h, change_1d,
    change_7d, tokens, tokensInUsd⟩

/-- `DefiLlama.get_protocol` (and its async form, whose body is identical):
build the request, perform it against the remote, validate the body as
`ProtocolDetails`. -/
def get_protocol (protocol_slug : String) (remote : RemoteState) :
    Except PyError ProtocolDetails :=
  validated decodeProtocolDetails
    (runRequest (remote (getProtocolRequest protocol_slug)))

/-- `DefiLlama.get_protocol_tvl`: the parsed body of a successful request is
returned directly, with no model validation step. -/
def get_protocol_tvl (protocol_slug : String) (remote : RemoteState) :
    Except PyError Json :=
  runRequest (remote (getProtocolTvlRequest protocol_slug))

/-- `DefiLlama.get_protocol_tvl_async`: body identical to the blocking
form. -/
def get_protocol_tvl_async (protocol_slug : String) (remote : RemoteState) :
    Except PyError Json :=
  runRequest (remote (getProtocolTvlRequest protocol_slug))

/-- `DefiLlama.get_block`. -/
def get_block (chain : String) (timestamp : Int) (remote : RemoteState) :
    Except PyError Block :=
  validated decodeBlock (runRequest (remote (getBlockRequest chain timestamp)))

/-- `DefiLlama.get_block_async` (same decoder, but the request is built
without lowercasing the chain). -/
def get_block_async (chain : String) (timestamp : Int)
    (remote : RemoteState) : Except PyError Block :=
  validated decodeBlock
    (runRequest (remote (getBlockAsyncRequest chain timestamp)))

/-- `DefiLlama.get_stablecoins` (and its async form, whose body is
identical). -/
def get_stablecoins (include_prices : Bool) (remote : RemoteState) :
    Except PyError (List Stablecoin) :=
  match runRequest (remote (getStablecoinsRequest include_prices)) with
  | .error e => .error e
  | .ok data =>
      match getStablecoinsDecode data with
      | .ok v => .ok v
      | .error err => .error (.validationError err)

/-- `DefiLlama.get_pools` (and its async form, whose body is identical). -/
def get_pools (remote : RemoteState) : Except PyError (List Pool) :=
  match runRequest (remote getPoolsRequest) with
  | .error e => .error e
  | .ok data =>
      match getPoolsDecode data with
      | .ok v => .ok v
      | .error err => .error (.validationError err)

/-- Claim C2 (divergence witness): at chain `"Ethereum"`, the blocking
nearest-block form requests `/block/ethereum/...` (it lowercases the chain)
while the non-blocking form requests `/block/Ethereum/...` (it does not), so
the two forms do not build the same request for every chain string. -/
theorem get_block_sync_async_divergence :
    (getBlockRequest "Ethereum" 1700000000).url =
      COINS_URL ++ "/block/ethereum/1700000000" ∧
    (getBlockAsyncRequest "Ethereum" 1700000000).url =
      COINS_URL ++ "/block/Ethereum/1700000000" ∧
    getBlockRequest "Ethereum" 1700000000 ≠
      getBlockAsyncRequest "Ethereum" 1700000000 := by
  refine ⟨by decide, by decide, by decide⟩

/-- Claim C9: an optional numeric parameter supplied as `0` fails the
Python truthiness test exactly like an unsupplied one, so the built request
(URL and query parameters) is identical: `start=end=span=0` for the price
chart, `timestamp=0` for the percentage change, and `stablecoin=0` for the
stablecoin charts. -/
theorem zero_valued_params_omitted (coins : List String)
    (p w : Option String) (lf : Bool) (period : String)
    (chain : Option String) :
    getPriceChartRequest coins (some 0) (some 0) (some 0) p w =
      getPriceChartRequest coins none none none p w ∧
    getPricePercentageChangeRequest coins (some 0) lf period =
      getPricePercentageChangeRequest coins none lf period ∧
    getStablecoinChartsRequest chain (some 0) =
      getStablecoinChartsRequest chain none := by
  refine ⟨?_, ?_, ?_⟩ <;>
    simp [getPriceChartRequest, getPricePercentageChangeRequest,
      getStablecoinChartsRequest, optIntParam]

/-- Claim C10: the simplified-TVL operation returns the parsed JSON body of
any 2xx response unchanged, with no validation step, and can never surface a
`ValidationError`; the non-blocking form behaves identically. -/
theorem protocol_tvl_no_validation (protocol_slug : String)
    (t : TransportOutcome) :
    (∀ r : Response, t = .response r → statusIsSuccess r.statusCode = true →
      get_protocol_tvl protocol_slug (fun _ => t) = .ok r.body) ∧
    (∀ err, get_protocol_tvl protocol_slug (fun _ => t) ≠
      .error (.validationError err)) ∧
    get_protocol_tvl_async protocol_slug (fun _ => t) =
      get_protocol_tvl protocol_slug (fun _ => t) := by
  refine ⟨?_, ?_, rfl⟩
  · rintro r rfl hs
    simp [get_protocol_tvl, runRequest, hs]
  · intro err
    cases t with
    | failure detail => simp [get_protocol_tvl, runRequest]
    | response r =>
        by_cases hs : statusIsSuccess r.statusCode <;>
          simp [get_protocol_tvl, runRequest, hs]

/-- Claim C4: when the remote answers the protocol-detail request with
status 400 or 404 (as it does for a non-existent slug such as
`"nonexistent-protocol-slug"`), `get_protocol` surfaces the HTTP-status
`ValueError` built from that status, never a `ValidationError` and never a
successfully decoded result. -/
theorem nonexistent_protocol_http_error (protocol_slug : String)
    (r : Response) (h : r.statusCode = 400 ∨ r.statusCode = 404) :
    get_protocol protocol_slug (fun _ => .response r) =
      .error (.valueError
        (httpErrorMessage r.statusCode r.reasonPhrase r.url)) ∧
    (∀ err, get_protocol protocol_slug (fun _ => .response r) ≠
      .error (.validationError err)) ∧
    (∀ v, get_protocol protocol_slug (fun _ => .response r) ≠ .ok v) := by
  have hs : statusIsSuccess r.statusCode = false := by
    rcases h with h | h <;> simp [statusIsSuccess, h]
  refine ⟨?_, ?_, ?_⟩ <;>
    simp [get_protocol, validated, runRequest, hs]

/-- Witness for claim C4 at the concrete input from the spec: slug
`"nonexistent-protocol-slug"` and a 404 response. -/
theorem nonexistent_protocol_http_error_witness :
    get_protocol "nonexistent-protocol-slug"
      (fun _ => .response ⟨404, "Not Found",
        "https://api.llama.fi/protocol/nonexistent-protocol-slug", .null⟩) =
      .error (.valueError (httpErrorMessage 404 "Not Found"
        "https://api.llama.fi/protocol/nonexistent-protocol-slug")) :=
  (nonexistent_protocol_http_error "nonexistent-protocol-slug"
    ⟨404, "Not Found",
      "https://api.llama.fi/protocol/nonexistent-protocol-slug", .null⟩
    (Or.inr rfl)).1

/-- Claim C1 (counterexample): two 404 responses that differ only in their
body surface the very same error value from the protocol-detail operation,
so the error raised on a non-2xx status does not carry the raw response body
(it is a `ValueError` holding only the formatted message, which is built
from status, reason phrase and URL alone). -/
theorem http_error_drops_body :
    get_protocol "aave" (fun _ => .response ⟨404, "Not Found",
        "https://api.llama.fi/protocol/aave", .str "detail A"⟩) =
      get_protocol "aave" (fun _ => .response ⟨404, "Not Found",
        "https://api.llama.fi/protocol/aave", .str "detail B"⟩) ∧
    Json.str "detail A" ≠ Json.str "detail B" := by
  refine ⟨rfl, ?_⟩
  intro h
  injection h with h
  exact absurd h (by decide)

/-- Claim C1 (amended): a failing operation surfaces exactly one of three
error kinds, distinguishable as distinct constructors (exception classes):
an uncaught transport error, the `ValueError` raised on a non-2xx status, or
a `ValidationError` from decoding; the `ValueError` carries only a message
embedding the status code, reason phrase and URL — not the status or the
response body as structured data. -/
theorem error_taxonomy_amended {α : Type} (dec : Json → Except DecodeErr α)
    (t : TransportOutcome) (e : PyError)
    (h : validated dec (runRequest t) = .error e) :
    (∃ detail, t = .failure detail ∧ e = .transportError detail) ∨
    (∃ r : Response, t = .response r ∧ statusIsSuccess r.statusCode = false ∧
      e = .valueError (httpErrorMessage r.statusCode r.reasonPhrase r.url)) ∨
    (∃ r : Response, ∃ err, t = .response r ∧
      statusIsSuccess r.statusCode = true ∧ dec r.body = .error err ∧
      e = .validationError err) := by
  cases t with
  | failure detail =>
      simp only [validated, runRequest, Except.error.injEq] at h
      exact Or.inl ⟨detail, rfl, h.symm⟩
  | response r =>
      by_cases hs : statusIsSuccess r.statusCode = true
      · cases hd : dec r.body with
        | ok v => simp [validated, runRequest, hs, hd] at h
        | error err =>
            simp only [validated, runRequest, hs, if_true, hd,
              Except.error.injEq] at h
            exact Or.inr (Or.inr ⟨r, err, rfl, hs, hd, h.symm⟩)
      · have hs' : statusIsSuccess r.statusCode = false :=
          Bool.eq_false_iff.mpr hs
        simp only [validated, runRequest, hs', Bool.false_eq_true, if_false,
          Except.error.injEq] at h
        exact Or.inr (Or.inl ⟨r, rfl, hs', h.symm⟩)

/-- Witness for the amended claim C1: a concrete 404 response through the
nearest-block decoder lands in the `ValueError` branch of the taxonomy. -/
theorem error_taxonomy_amended_witness :
    (∃ detail, TransportOutcome.response
        ⟨404, "Not Found", "https://coins.llama.fi/block/ethereum/0",
          Json.null⟩ = .failure detail ∧
      PyError.valueError (httpErrorMessage 404 "Not Found"
        "https://coins.llama.fi/block/ethereum/0") =
        .transportError detail) ∨
    (∃ r : Response, TransportOutcome.response
        ⟨404, "Not Found", "https://coins.llama.fi/block/ethereum/0",
          Json.null⟩ = .response r ∧
      statusIsSuccess r.statusCode = false ∧
      PyError.valueError (httpErrorMessage 404 "Not Found"
        "https://coins.llama.fi/block/ethereum/0") =
        .valueError (httpErrorMessage r.statusCode r.reasonPhrase r.url)) ∨
    (∃ r : Response, ∃ err, TransportOutcome.response
        ⟨404, "Not Found", "https://coins.llama.fi/block/ethereum/0",
          Json.null⟩ = .response r ∧
      statusIsSuccess r.statusCode = true ∧
      decodeBlock r.body = .error err ∧
      PyError.valueError (httpErrorMessage 404 "Not Found"
        "https://coins.llama.fi/block/ethereum/0") =
        .validationError err) :=
  error_taxonomy_amended decodeBlock
    (.response ⟨404, "Not Found",
      "https://coins.llama.fi/block/ethereum/0", Json.null⟩)
    (.valueError (httpErrorMessage 404 "Not Found"
      "https://coins.llama.fi/block/ethereum/0")) rfl

/-- A stablecoin JSON record with the required scalar fields fixed and the
four circulating-family fields supplied by the caller (used to probe the
decoder). -/
def stablecoinJson (circ prevDay prevWeek prevMonth : Json) : Json :=
  .obj [("id", .str "1"), ("name", .str "Tether"), ("symbol", .str "USDT"),
    ("pegType", .str "peggedUSD"), ("pegMechanism", .str "fiat-backed"),
    ("circulating", circ), ("circulatingPrevDay", prevDay),
    ("circulatingPrevWeek", prevWeek), ("circulatingPrevMonth", prevMonth)]

/-- Claim C6: on the `circulatingPrevDay` union field, the JSON object
mapping "ethereum" to 1000.0 decodes to the map variant with exactly that
key and value, and the JSON value `0` decodes to the sentinel variant equal
to `0` — both at the union decoder and through the whole stablecoin
record. -/
theorem circulating_prev_day_roundtrip :
    decodeCirculatingValue (.obj [("ethereum", .float 1000)]) =
      some (.chainMap [("ethereum", 1000)]) ∧
    decodeCirculatingValue (.int 0) = some (.sentinel 0) ∧
    (decodeStablecoin (stablecoinJson (.obj [("ethereum", .float 1000)])
        (.obj [("ethereum", .float 1000)]) (.int 0) (.int 0))).toOption.map
      Stablecoin.circulatingPrevDay =
      some (some (.chainMap [("ethereum", 1000)])) ∧
    (decodeStablecoin (stablecoinJson (.obj [("ethereum", .float 1000)])
        (.int 0) (.int 0) (.int 0))).toOption.map
      Stablecoin.circulatingPrevDay = some (some (.sentinel 0)) := by
  refine ⟨rfl, rfl, rfl, rfl⟩

/-- Claim C3 (counterexample): a stablecoin record whose `circulating` field
is the bare numeric sentinel `0` is rejected by the decoder — `circulating`
is declared `Dict[str, float]`, not a union — so not all four
circulating-family fields accept the sentinel form. -/
theorem circulating_sentinel_rejected :
    decodeStablecoin (stablecoinJson (.int 0) (.int 0) (.int 0) (.int 0)) =
      .error ⟨["circulating"], "Input should be a valid dictionary"⟩ := rfl

/-- Decoding a chain-to-amount JSON object built from a rational-valued map
recovers exactly that map. -/
theorem decodeStrNumPairs_map_float (m : List (String × ℚ)) :
    decodeStrNumPairs (m.map (fun p => (p.1, Json.float p.2))) = some m := by
  induction m with
  | nil => rfl
  | cons p rest ih =>
      obtain ⟨k, v⟩ := p
      simp [decodeStrNumPairs, decodeNumQ, ih]

/-- Claim C3 (amended): each of `circulatingPrevDay`, `circulatingPrevWeek`
and `circulatingPrevMonth` decodes from either a chain-to-amount map or a
bare integer sentinel, and the decoded value keeps the two variants apart;
`circulating` itself decodes only from the map form and rejects the
sentinel. -/
theorem circulating_union_fields_amended (m : List (String × ℚ)) (n : Int) :
    decodeCirculatingValue (.obj (m.map (fun p => (p.1, Json.float p.2)))) =
      some (.chainMap m) ∧
    decodeCirculatingValue (.int n) = some (.sentinel n) ∧
    decodeStablecoin (stablecoinJson
        (.obj (m.map (fun p => (p.1, Json.float p.2))))
        (.obj (m.map (fun p => (p.1, Json.float p.2)))) (.int n) (.int n)) =
      .ok ⟨"1", "Tether", "USDT", none, "peggedUSD", none, "fiat-backed",
        m, some (.chainMap m), some (.sentinel n), some (.sentinel n),
        none, none⟩ ∧
    decodeStablecoin (stablecoinJson (.int n) (.int n) (.int n) (.int n)) =
      .error ⟨["circulating"], "Input should be a valid dictionary"⟩ := by
  refine ⟨?_, rfl, ?_, ?_⟩
  · simp [decodeCirculatingValue, decodeStrNumPairs_map_float]
  · simp [decodeStablecoin, stablecoinJson, asModelInput, reqField, optField,
      lookupField, decodeStrJ, decodeChainAmounts, decodeCirculatingValue,
      decodeStrNumPairs_map_float, bind, Except.bind, pure, Except.pure,
      Functor.map, Except.map]
  · simp [decodeStablecoin, stablecoinJson, asModelInput, reqField, optField,
      lookupField, decodeStrJ, decodeChainAmounts, bind, Except.bind]

/-- Claim C5: envelope unwrapping is exact and tolerant for the two
enveloped collection endpoints: a body wrapping the array `[a, b]` under the
`peggedAssets` key decodes through `get_stablecoins` to exactly the list of
the two decoded elements, and the bare array body gives the same result;
likewise for `get_pools` with the `data` envelope key. -/
theorem envelope_unwrapping_exact (a b : Json) (x y : Stablecoin)
    (p q : Pool) :
    (decodeStablecoin a = .ok x → decodeStablecoin b = .ok y →
      getStablecoinsDecode (.obj [("peggedAssets", .arr [a, b])]) =
        .ok [x, y] ∧
      getStablecoinsDecode (.arr [a, b]) = .ok [x, y]) ∧
    (decodePool a = .ok p → decodePool b = .ok q →
      getPoolsDecode (.obj [("data", .arr [a, b])]) = .ok [p, q] ∧
      getPoolsDecode (.arr [a, b]) = .ok [p, q]) := by
  constructor
  · intro ha hb
    constructor <;>
      simp [getStablecoinsDecode, lookupField, decodeStablecoins,
        decodeJsonList, decodeListFrom, ha, hb]
  · intro hp hq
    constructor <;>
      simp [getPoolsDecode, lookupField, decodePools, decodeJsonList,
        decodeListFrom, hp, hq]

/-- A concrete stablecoin record used to witness the envelope property. -/
def scSampleA : Json :=
  stablecoinJson (.obj [("Ethereum", .float 100)]) (.int 0) (.int 0) (.int 0)

/-- A second concrete stablecoin record. -/
def scSampleB : Json :=
  stablecoinJson (.obj []) (.obj []) (.int 0) (.int 0)

/-- A concrete pool record used to witness the envelope property. -/
def poolSampleA : Json :=
  .obj [("chain", .str "Ethereum"), ("project", .str "lido"),
    ("symbol", .str "STETH"), ("tvlUsd", .float 1000000),
    ("apy", .float 3), ("pool", .str "pool-a"), ("stablecoin", .bool false)]

/-- A second concrete pool record. -/
def poolSampleB : Json :=
  .obj [("chain", .str "Arbitrum"), ("project", .str "aave-v3"),
    ("symbol", .str "USDC"), ("tvlUsd", .int 500), ("apy", .float 2),
    ("pool", .str "pool-b"), ("stablecoin", .bool true)]

/-- The decoded value of `scSampleA`. -/
def scValA : Stablecoin :=
  ⟨"1", "Tether", "USDT", none, "peggedUSD", none, "fiat-backed",
    [("Ethereum", 100)], some (.sentinel 0), some (.sentinel 0),
    some (.sentinel 0), none, none⟩

/-- The decoded value of `scSampleB`. -/
def scValB : Stablecoin :=
  ⟨"1", "Tether", "USDT", none, "peggedUSD", none, "fiat-backed",
    [], some (.chainMap []), some (.sentinel 0), some (.sentinel 0),
    none, none⟩

/-- The decoded value of `poolSampleA`. -/
def poolValA : Pool :=
  ⟨"Ethereum", "lido", "STETH", 1000000, none, none, 3, none, "pool-a",
    none, none, none, false, none, none, none⟩

/-- The decoded value of `poolSampleB`. -/
def poolValB : Pool :=
  ⟨"Arbitrum", "aave-v3", "USDC", 500, none, none, 2, none, "pool-b",
    none, none, none, true, none, none, none⟩

/-- Witness for claim C5 at concrete records: both envelope shapes of both
endpoints return exactly the two decoded elements in order. -/
theorem envelope_unwrapping_exact_witness :
    (getStablecoinsDecode (.obj [("peggedAssets",
        .arr [scSampleA, scSampleB])]) = .ok [scValA, scValB] ∧
      getStablecoinsDecode (.arr [scSampleA, scSampleB]) =
        .ok [scValA, scValB]) ∧
    (getPoolsDecode (.obj [("data", .arr [poolSampleA, poolSampleB])]) =
        .ok [poolValA, poolValB] ∧
      getPoolsDecode (.arr [poolSampleA, poolSampleB]) =
        .ok [poolValA, poolValB]) :=
  ⟨(envelope_unwrapping_exact scSampleA scSampleB scValA scValB poolValA
      poolValB).1 rfl rfl,
   (envelope_unwrapping_exact poolSampleA poolSampleB scValA scValB poolValA
      poolValB).2 rfl rfl⟩

/-- Whether the built request carries a query parameter under the given
key. -/
def hasParam (r : Request) (key : String) : Bool :=
  r.params.any (fun p => p.1 == key)

/-- The conditional int parameter only ever contributes its own key. -/
theorem any_optIntParam (k key : String) (v : Option Int) :
    ((optIntParam k v).any (fun p => p.1 == key)) =
      (truthyOptInt v && (k == key)) := by
  cases v with
  | none => rfl
  | some n =>
      simp only [optIntParam, truthyOptInt]
      split <;> simp_all

/-- The conditional string parameter only ever contributes its own key. -/
theorem any_optStrParam (k key : String) (v : Option String) :
    ((optStrParam k v).any (fun p => p.1 == key)) =
      (truthyOptStr v && (k == key)) := by
  cases v with
  | none => rfl
  | some s =>
      simp only [optStrParam, truthyOptStr]
      split <;> simp_all

/-- Claim C7: an optional query parameter the caller does not supply is
entirely absent from the built request — shown for all five optional
parameters of the price-chart operation and for `searchWidth` of the
batch-historical-prices operation, each with the other arguments
arbitrary. -/
theorem unsupplied_optional_params_absent (coins : List String)
    (s e sp : Option Int) (p w : Option String)
    (cd : List (String × List Int)) :
    hasParam (getPriceChartRequest coins none e sp p w) "start" = false ∧
    hasParam (getPriceChartRequest coins s none sp p w) "end" = false ∧
    hasParam (getPriceChartRequest coins s e none p w) "span" = false ∧
    hasParam (getPriceChartRequest coins s e sp none w) "period" = false ∧
    hasParam (getPriceChartRequest coins s e sp p none) "searchWidth" =
      false ∧
    hasParam (getBatchHistoricalPricesRequest cd none) "searchWidth" =
      false := by
  refine ⟨?_, ?_, ?_, ?_, ?_, ?_⟩ <;>
    simp [hasParam, getPriceChartRequest, getBatchHistoricalPricesRequest,
      List.any_append, any_optIntParam, any_optStrParam, truthyOptInt,
      truthyOptStr]

/-- An infix of a list stays an infix after appending on the right. -/
theorem infix_extend_right {α : Type} {xs ys : List α} (zs : List α)
    (h : xs <:+: ys) : xs <:+: ys ++ zs := by
  obtain ⟨s, t, hst⟩ := h
  exact ⟨s, t ++ zs, by rw [← hst]; simp [List.append_assoc]⟩

/-- An infix of a list stays an infix after appending on the left. -/
theorem infix_extend_left {α : Type} {xs zs : List α} (ys : List α)
    (h : xs <:+: zs) : xs <:+: ys ++ zs := by
  obtain ⟨s, t, hst⟩ := h
  exact ⟨ys ++ s, t, by rw [← hst]; simp [List.append_assoc]⟩

/-- The characters of the accumulator, and of every remaining list element,
appear verbatim inside the result of the `String.intercalate` loop. -/
theorem infix_data_intercalate_go (c sep : String) (as : List String) :
    ∀ acc : String, (c.data <:+: acc.data ∨ c ∈ as) →
      c.data <:+: (String.intercalate.go acc sep as).data := by
  induction as with
  | nil =>
      intro acc h
      rcases h with h | h
      · simpa [String.intercalate.go] using h
      · simp at h
  | cons a as ih =>
      intro acc h
      rw [show String.intercalate.go acc sep (a :: as) =
        String.intercalate.go (acc ++ sep ++ a) sep as from rfl]
      apply ih
      rcases h with h | h
      · left
        rw [String.data_append, String.data_append]
        exact infix_extend_right _ (infix_extend_right _ h)
      · rcases List.mem_cons.mp h with rfl | h2
        · left
          rw [String.data_append]
          exact ⟨(acc ++ sep).data, [], by simp⟩
        · right
          exact h2

/-- Every member of the joined list appears verbatim inside the
comma-joined string. -/
theorem infix_data_intercalate (c sep : String) (coins : List String)
    (h : c ∈ coins) : c.data <:+: (String.intercalate sep coins).data := by
  cases coins with
  | nil => simp at h
  | cons a as =>
      rw [show String.intercalate sep (a :: as) =
        String.intercalate.go a sep as from rfl]
      apply infix_data_intercalate_go
      rcases List.mem_cons.mp h with rfl | h2
      · left
        exact List.infix_rfl
      · right
        exact h2

/-- Claim C8: for a non-empty coin list, the current-prices URL places the
identifiers in the path joined by single commas in the caller's order, and
each identifier's characters appear verbatim (the builder performs no
normalization of any character, colon and comma included). -/
theorem coins_path_segment_verbatim (coins : List String) (w : String)
    (_h : coins ≠ []) :
    (getCurrentPricesRequest coins w).url =
      COINS_URL ++ "/prices/current/" ++ String.intercalate "," coins ∧
    ∀ c ∈ coins, c.data <:+: (getCurrentPricesRequest coins w).url.data := by
  refine ⟨rfl, ?_⟩
  intro c hc
  show c.data <:+:
    ((COINS_URL ++ "/prices/current/") ++ String.intercalate "," coins).data
  rw [String.data_append]
  exact infix_extend_left _ (infix_data_intercalate c "," coins hc)

/-- Witness for claim C8 at the spec's concrete input: the two identifiers
produce the verbatim path segment `ethereum:0xabc,coingecko:bitcoin`. -/
theorem coins_path_segment_verbatim_witness :
    (getCurrentPricesRequest ["ethereum:0xabc", "coingecko:bitcoin"]
        "4h").url =
      "https://coins.llama.fi/prices/current/ethereum:0xabc,coingecko:bitcoin" := by
  have h := (coins_path_segment_verbatim ["ethereum:0xabc",
    "coingecko:bitcoin"] "4h" (by decide)).1
  rw [h]
  decide

/-- Witness for claim C10: a 200 response whose body is a JSON array (not a
number) is returned unchanged by the simplified-TVL operation. -/
theorem protocol_tvl_no_validation_witness :
    get_protocol_tvl "uniswap"
      (fun _ => .response ⟨200, "OK", "https://api.llama.fi/tvl/uniswap",
        .arr [.int 1, .str "not a number"]⟩) =
      .ok (.arr [.int 1, .str "not a number"]) :=
  (protocol_tvl_no_validation "uniswap"
    (.response ⟨200, "OK", "https://api.llama.fi/tvl/uniswap",
      .arr [.int 1, .str "not a number"]⟩)).1
    ⟨200, "OK", "https://api.llama.fi/tvl/uniswap",
      .arr [.int 1, .str "not a number"]⟩ rfl rfl
